/-
Shallow embedding of the ECG measurement application (src/ecg_ui.py) and a
verification of its specification claims.

Scope of the embedding: the acquisition-to-metrics pipeline of `EcgWindow` —
the shared sample buffer (`ecg_data`), the incremental R-peak detector with
hysteresis (`detect_r_peaks`), the RR-interval/BPM metrics (`get_rr_interval`,
`get_bpm`), the display-window management (`reset_ydata`,
`process_fresh_data`, the slider/scrub logic) and the measurement lifecycle
(`start_measurement`, `stop_measurement`, `tick_method`, `load_file`,
`load_measurement`).

The Qt GUI layer (widgets, canvas drawing in `update_plot`, stack switching,
button texts, axis tick labels, dialog rendering) is out of scope; only the
state those methods mutate is modelled.  Python floats are modelled as exact
rationals, Python `int(x)` as truncation toward zero (`ratTrunc`), and Python
`round(x, 1)` as round-half-to-even at one decimal (`pyRound1`).  Python
exceptions are modelled with `Option` and explicit result types; the one
unhandled exception in the source (a `NameError` in `load_file` when the file
cannot be opened, because `file_content` is then referenced before
assignment) is modelled by the explicit result `LoadFileResult.crash`.
-/
import Mathlib

/-! Constants fixed in `EcgWindow.__init__`. -/

def display_count : ℕ := 2000

def min_ydata_value : ℤ := 0

def max_ydata_value : ℤ := 4095

def sampling_time : ℕ := 2

def sampling_rate : ℕ := 500

def measurement_duration : ℕ := 30

def time_between_health_data_calculations : ℕ := 3

def r_peak_upper_threshold : ℤ := 2600

def r_peak_lower_threshold : ℤ := 2000

def slider_min_value : ℕ := 0

def slider_max_value : ℕ := 100

namespace SerialCode

def START_MEASUREMENT : ℕ := 1

def STOP_MEASUREMENT : ℕ := 2

end SerialCode

namespace ErrorCode

def NO_ERROR : ℕ := 0

def INVALID_CONTENT : ℕ := 1

def NOT_ENOUGH_DATA : ℕ := 2

end ErrorCode

/-! Python numeric primitives on exact rationals. -/

/-- Python `int(x)`: truncation toward zero. -/
def ratTrunc (q : ℚ) : ℤ :=
  if q < 0 then -⌊-q⌋ else ⌊q⌋

/-- Python `round(x)` to an integer: round half to even (banker's rounding). -/
def roundHalfEven (q : ℚ) : ℤ :=
  if q - ⌊q⌋ < 1 / 2 then ⌊q⌋
  else if (1 : ℚ) / 2 < q - ⌊q⌋ then ⌊q⌋ + 1
  else if ⌊q⌋ % 2 = 0 then ⌊q⌋ else ⌊q⌋ + 1

/-- Python `round(x, 1)`: round to one decimal place. -/
def pyRound1 (q : ℚ) : ℚ :=
  (roundHalfEven (q * 10) : ℚ) / 10

/-- Clamp a (possibly negative) Python slice index into `[0, n]`. -/
def pySliceBound (n : ℕ) (i : ℤ) : ℕ :=
  if i < 0 then ((n : ℤ) + i).toNat else min i.toNat n

/-- Python `l[a:b]` with step 1, including negative-index semantics. -/
def pySlice (l : List ℤ) (a b : ℤ) : List ℤ :=
  (l.take (pySliceBound l.length b)).drop (pySliceBound l.length a)

/-! The mutable state of `EcgWindow` (plus the module-level globals
`g_ecg_data`, `g_is_measurement_in_progress`, `g_ser`). -/

structure EcgState where
  ecg_data : List ℤ
  ydata : List ℤ
  last_processed_index : ℕ
  last_time_health_data_calculated : ℕ
  r_peak_detectable : Bool
  r_peak_interval_counter : ℕ
  r_peak_intervals : List ℕ
  is_measurement_in_progress : Bool
  timer_running : Bool
  ser_connected : Bool
  serial_writes : List ℕ
  slider_visible : Bool
  slider_value : ℕ
  slider_jump_value : ℚ
  countdown_label : Option ℤ
  rr_interval_label : Option ℚ
  bpm_label : Option ℤ
  signal_error_reported : Bool
  reported_errors : List ℕ
deriving Repr

/-- The detector fields of the state, scanned by `detect_r_peaks`. -/
structure DetectorState where
  r_peak_detectable : Bool
  r_peak_interval_counter : ℕ
  r_peak_intervals : List ℕ
deriving Repr, DecidableEq

/-! The R-peak detector (`detect_r_peaks`). -/

/-- One iteration of the `for i in range(...)` loop body of `detect_r_peaks`. -/
def detect_step (ecg_data : List ℤ) (d : DetectorState) (i : ℕ) : DetectorState :=
  let counter := d.r_peak_interval_counter + 1
  if d.r_peak_detectable = true ∧ ecg_data.getD i 0 > r_peak_upper_threshold
      ∧ ecg_data.getD i 0 > ecg_data.getD (i + 1) 0 then
    { r_peak_detectable := false
      r_peak_interval_counter := 0
      r_peak_intervals := d.r_peak_intervals ++ [counter * sampling_time] }
  else if ecg_data.getD i 0 < r_peak_lower_threshold then
    { r_peak_detectable := true
      r_peak_interval_counter := counter
      r_peak_intervals := d.r_peak_intervals }
  else
    { d with r_peak_interval_counter := counter }

/-- The detector loop over an explicit list of scanned indices. -/
def detect_range (ecg_data : List ℤ) (d : DetectorState) (idxs : List ℕ) : DetectorState :=
  idxs.foldl (detect_step ecg_data) d

/-- Method `detect_r_peaks`: scans indices `range(last_processed_index, len(ecg_data) - 1)`. -/
def detect_r_peaks (s : EcgState) : EcgState :=
  let d := detect_range s.ecg_data
    { r_peak_detectable := s.r_peak_detectable
      r_peak_interval_counter := s.r_peak_interval_counter
      r_peak_intervals := s.r_peak_intervals }
    (List.range' s.last_processed_index (s.ecg_data.length - 1 - s.last_processed_index))
  { s with r_peak_detectable := d.r_peak_detectable
           r_peak_interval_counter := d.r_peak_interval_counter
           r_peak_intervals := d.r_peak_intervals }

/-- Whether the loop body emits a `PeakEvent` at index `i` in state `d`
(the condition of the first branch of `detect_step`). -/
def emits (ecg_data : List ℤ) (d : DetectorState) (i : ℕ) : Bool :=
  decide (d.r_peak_detectable = true ∧ ecg_data.getD i 0 > r_peak_upper_threshold
    ∧ ecg_data.getD i 0 > ecg_data.getD (i + 1) 0)

/-- The emission trace of a scan: for each scanned index (in scan order),
whether a `PeakEvent` is emitted there. -/
def emitFlags (ecg_data : List ℤ) (d : DetectorState) : List ℕ → List Bool
  | [] => []
  | i :: is => emits ecg_data d i :: emitFlags ecg_data (detect_step ecg_data d i) is

/-! Health metrics (`get_rr_interval`, `get_bpm`). -/

/-- Method `get_rr_interval`: `round(statistics.fmean(r_peak_intervals) * 10**-3, 1)`.
`statistics.fmean` of an empty collection raises (modelled as `none`). -/
def get_rr_interval (r_peak_intervals : List ℕ) : Option ℚ :=
  if r_peak_intervals.isEmpty then none
  else some (pyRound1
    (((r_peak_intervals.foldl (fun a b => a + b) 0 : ℕ) : ℚ)
      / (r_peak_intervals.length : ℚ) * (1 / 1000)))

/-- Method `get_bpm`: `int((len(r_peak_intervals) + 1) / elapsed * 60)`; a zero
elapsed time raises `ZeroDivisionError` (modelled as `none`). -/
def get_bpm (r_peak_intervals : List ℕ) (elapsed : ℕ) : Option ℤ :=
  if elapsed = 0 then none
  else some (ratTrunc ((((r_peak_intervals.length + 1 : ℕ) : ℚ)) / (elapsed : ℚ) * 60))

/-! Display window and measurement lifecycle. -/

/-- Method `get_elapsed_time`: `int(len(ecg_data) / sampling_rate)`. -/
def get_elapsed_time (ecg_data_length : ℕ) : ℕ :=
  ecg_data_length / sampling_rate

/-- Method `is_measurement_finished`: `measurement_duration == get_elapsed_time()`. -/
def is_measurement_finished (s : EcgState) : Bool :=
  decide (measurement_duration = get_elapsed_time s.ecg_data.length)

/-- Method `is_health_data_ready_for_calculation`:
`get_elapsed_time() - last_time_health_data_calculated == time_between_health_data_calculations`
(Python int subtraction, hence computed in `ℤ`). -/
def is_health_data_ready_for_calculation (s : EcgState) : Bool :=
  decide ((get_elapsed_time s.ecg_data.length : ℤ)
    - (s.last_time_health_data_calculated : ℤ)
    = (time_between_health_data_calculations : ℤ))

/-- Method `reset_ydata`: `ydata = [min_ydata_value] + [max_ydata_value] * (display_count - 1)`. -/
def reset_ydata (s : EcgState) : EcgState :=
  { s with ydata := min_ydata_value :: List.replicate (display_count - 1) max_ydata_value }

/-- Method `reset_labels`: all three labels back to their dash placeholder. -/
def reset_labels (s : EcgState) : EcgState :=
  { s with countdown_label := none, rr_interval_label := none, bpm_label := none }

/-- Method `write_serial(code)`: writes only when a serial handle is present. -/
def write_serial (s : EcgState) (code : ℕ) : EcgState :=
  if s.ser_connected then { s with serial_writes := s.serial_writes ++ [code] } else s

/-- Method `reset_measurement_data_and_graph_ui` (the `update_plot` call and the
x-tick clearing are GUI-only and not modelled). -/
def reset_measurement_data_and_graph_ui (s : EcgState) : EcgState :=
  let s1 := { s with ecg_data := []
                     r_peak_intervals := []
                     last_processed_index := 0
                     last_time_health_data_calculated := 0
                     r_peak_interval_counter := 0
                     r_peak_detectable := true }
  let s2 := reset_labels (reset_ydata s1)
  { s2 with slider_visible := false }

/-- Method `start_measurement`. -/
def start_measurement (s : EcgState) : EcgState :=
  let s1 := write_serial s SerialCode.START_MEASUREMENT
  let s2 := reset_measurement_data_and_graph_ui s1
  { s2 with timer_running := true, is_measurement_in_progress := true }

/-- Method `start_button_action`: `connect_ok` is the outcome of `connect_serial_port`
(the external transport); on failure only a message box is shown (GUI). -/
def start_button_action (s : EcgState) (connect_ok : Bool) : EcgState :=
  if connect_ok then start_measurement { s with ser_connected := true } else s

/-- Method `stop_measurement` (the universal-button switch is GUI-only). -/
def stop_measurement (s : EcgState) : EcgState :=
  let s1 := { s with is_measurement_in_progress := false }
  let s2 := write_serial s1 SerialCode.STOP_MEASUREMENT
  { s2 with timer_running := false }

/-- Method `calculate_slider_jump_value`:
`(len(ecg_data) - display_count) / slider_max_value` (Python float division). -/
def calculate_slider_jump_value (ecg_data_length : ℕ) : ℚ :=
  ((ecg_data_length : ℚ) - (display_count : ℚ)) / (slider_max_value : ℚ)

/-- The index computation of `slider_action`:
`from = int(value * jump)`, clamped so the window ends at the buffer end
when it would overrun; returns `(from, to)`. -/
def slider_indices (total : ℕ) (jump : ℚ) (value : ℕ) : ℤ × ℤ :=
  let f := ratTrunc ((value : ℚ) * jump)
  if f + (display_count : ℤ) > (total : ℤ) then
    ((total : ℤ) - (display_count : ℤ), (total : ℤ))
  else
    (f, f + (display_count : ℤ))

/-- Method `slider_action(value)` on the state (the x-axis label update and the
canvas redraw are GUI-only). -/
def slider_action (s : EcgState) (value : ℕ) : EcgState :=
  let p := slider_indices s.ecg_data.length s.slider_jump_value value
  { s with slider_value := value, ydata := pySlice s.ecg_data p.1 p.2 }

/-- Method `initialize_slider`: set value to the minimum, recompute the jump value,
apply `slider_action(0)`, show the slider.  (The `valueChanged` signal fired
by `setValue` runs `slider_action` with the stale jump value, but its effect
is overwritten by the explicit `slider_action(0)` call, so the net state is
as modelled.) -/
def initialize_slider (s : EcgState) : EcgState :=
  let s1 := { s with slider_value := slider_min_value
                     slider_jump_value := calculate_slider_jump_value s.ecg_data.length }
  let s2 := slider_action s1 0
  { s2 with slider_visible := true }

/-- Method `process_fresh_data`: shift the live window by the number of fresh
samples, scan them for R peaks, and advance `last_processed_index` to
`len(ecg_data)`. -/
def process_fresh_data (s : EcgState) : EcgState :=
  let fresh := s.ecg_data.drop s.last_processed_index
  let s1 := { s with ydata := s.ydata.drop fresh.length ++ fresh }
  let s2 := detect_r_peaks s1
  { s2 with last_processed_index := s2.ecg_data.length }

/-- Method `calculate_and_update_label_values`.  The `try`/`except` around the two
metric getters is modelled by matching on their `Option` results; Python sets
the RR label before evaluating `get_bpm`, so a BPM failure keeps the freshly
set RR label.  The `except` branch force-stops the measurement and reports a
signal-processing error. -/
def calculate_and_update_label_values (s : EcgState) : EcgState :=
  let elapsed := get_elapsed_time s.ecg_data.length
  let cd : Option ℤ :=
    if s.is_measurement_in_progress = true then
      some ((measurement_duration : ℤ) - (elapsed : ℤ))
    else none
  let s1 := { s with countdown_label := cd }
  if s1.is_measurement_in_progress = false ∨ is_health_data_ready_for_calculation s1 = true then
    let s2 := { s1 with last_time_health_data_calculated := elapsed }
    match get_rr_interval s2.r_peak_intervals with
    | none => { stop_measurement s2 with signal_error_reported := true }
    | some rr =>
      let s3 := { s2 with rr_interval_label := some rr }
      match get_bpm s3.r_peak_intervals elapsed with
      | none => { stop_measurement s3 with signal_error_reported := true }
      | some b => { s3 with bpm_label := some b }
  else s1

/-- Method `tick_method` (the `update_plot` call is GUI-only). -/
def tick_method (s : EcgState) : EcgState :=
  let s1 :=
    if is_measurement_finished s = true then initialize_slider (stop_measurement s)
    else process_fresh_data s
  calculate_and_update_label_values s1

/-! File loading (`load_file`, `load_measurement`, `load_button_action`). -/

/-- What the external file system hands to `load_file`: either the `open` /
`readlines` call raises, or a list of lines, each given with its
`int(line.strip())` parse result. -/
inductive FileInput where
  | openFail : FileInput
  | lines : List (Option ℤ) → FileInput
deriving Repr, DecidableEq

/-- Result of `load_file`: `crash` models the unhandled `NameError` raised by
`len(file_content)` when `open` failed and `file_content` was never assigned;
`errorReported` models showing the message box and returning `None`;
`noFile` is the silent `None` for an empty filename. -/
inductive LoadFileResult where
  | crash : LoadFileResult
  | errorReported : ℕ → LoadFileResult
  | noFile : LoadFileResult
  | content : List ℤ → LoadFileResult
deriving Repr, DecidableEq

/-- The list comprehension `[int(line.strip()) for line in file_content]`:
all-or-nothing parse. -/
def parse_lines : List (Option ℤ) → Option (List ℤ)
  | [] => some []
  | none :: _ => none
  | some v :: rest => Option.map (fun l => v :: l) (parse_lines rest)

/-- Method `load_file`.  When the parse fails after a successful read,
`file_content` still holds the raw line list, so the length check runs on the
line count and can overwrite the error code with `NOT_ENOUGH_DATA`. -/
def load_file (has_filename : Bool) (input : FileInput) : LoadFileResult :=
  if has_filename then
    match input with
    | FileInput.openFail => LoadFileResult.crash
    | FileInput.lines ls =>
      match parse_lines ls with
      | some ints =>
        if ints.length < display_count then
          LoadFileResult.errorReported ErrorCode.NOT_ENOUGH_DATA
        else LoadFileResult.content ints
      | none =>
        if ls.length < display_count then
          LoadFileResult.errorReported ErrorCode.NOT_ENOUGH_DATA
        else LoadFileResult.errorReported ErrorCode.INVALID_CONTENT
  else LoadFileResult.noFile

/-- Method `load_measurement(file_content)`. -/
def load_measurement (s : EcgState) (file_content : List ℤ) : EcgState :=
  let s1 := reset_measurement_data_and_graph_ui s
  let s2 := { s1 with ecg_data := s1.ecg_data ++ file_content }
  let s3 := initialize_slider s2
  let s4 := detect_r_peaks s3
  calculate_and_update_label_values s4

/-- Method `load_button_action` (file selection and stack/button switching are
GUI-only).  `none` models an exception escaping the slot: the crash from
`load_file` propagates unhandled. -/
def load_button_action (s : EcgState) (has_filename : Bool) (input : FileInput) :
    Option EcgState :=
  match load_file has_filename input with
  | LoadFileResult.crash => none
  | LoadFileResult.errorReported c =>
    some { s with reported_errors := s.reported_errors ++ [c] }
  | LoadFileResult.noFile => some s
  | LoadFileResult.content l => some (load_measurement s l)

/-! Concrete states used in witnesses and counterexamples. -/

/-- The state right after `EcgWindow.__init__` with the module-level globals. -/
def initState : EcgState :=
  { ecg_data := []
    ydata := min_ydata_value :: List.replicate (display_count - 1) max_ydata_value
    last_processed_index := 0
    last_time_health_data_calculated := 0
    r_peak_detectable := true
    r_peak_interval_counter := 0
    r_peak_intervals := []
    is_measurement_in_progress := false
    timer_running := false
    ser_connected := false
    serial_writes := []
    slider_visible := false
    slider_value := 0
    slider_jump_value := 0
    countdown_label := none
    rr_interval_label := none
    bpm_label := none
    signal_error_reported := false
    reported_errors := [] }

/-- A state mid-recording: measurement in progress with one buffered sample. -/
def recordingState : EcgState :=
  { initState with is_measurement_in_progress := true
                   timer_running := true
                   ser_connected := true
                   ecg_data := [2048] }

/-- A freshly reset live window that then receives `display_count + 1`
samples before its first tick. -/
def cexC5 : EcgState :=
  { initState with ecg_data := List.replicate (display_count + 1) 0 }

/-- A recording state at elapsed time 3 s with no detected peak and all
samples already scanned. -/
def cexC7 : EcgState :=
  { initState with is_measurement_in_progress := true
                   timer_running := true
                   ser_connected := true
                   ecg_data := List.replicate 1500 0
                   last_processed_index := 1500 }

/-- A mid-scan buffer for the `last_processed_index` counterexample. -/
def cexC2 : EcgState :=
  { initState with ecg_data := [0, 0, 0] }

/-! Small field-preservation and unfolding lemmas shared by the claims. -/

theorem detect_r_peaks_ecg_data (s : EcgState) : (detect_r_peaks s).ecg_data = s.ecg_data := rfl

theorem detect_r_peaks_ydata (s : EcgState) : (detect_r_peaks s).ydata = s.ydata := rfl

theorem emitFlags_cons (data : List ℤ) (d : DetectorState) (i : ℕ) (is : List ℕ) :
    emitFlags data d (i :: is) = emits data d i :: emitFlags data (detect_step data d i) is := rfl

theorem detect_step_not_rearmed (data : List ℤ) (d : DetectorState) (i : ℕ)
    (h1 : d.r_peak_detectable = false)
    (h2 : ¬ data.getD i 0 < r_peak_lower_threshold) :
    (detect_step data d i).r_peak_detectable = false := by
  simp only [detect_step]
  rw [if_neg (by simp [h1]), if_neg h2]
  exact h1

theorem detect_step_disarm (data : List ℤ) (d : DetectorState) (i : ℕ)
    (h : emits data d i = true) :
    (detect_step data d i).r_peak_detectable = false := by
  simp only [detect_step]
  rw [if_pos (by simpa [emits] using h)]

theorem emitFlags_disarmed (data : List ℤ) :
    ∀ (idxs : List ℕ) (d : DetectorState) (k : ℕ),
      d.r_peak_detectable = false →
      (emitFlags data d idxs).getD k false = true →
      ∃ j, j < k ∧ data.getD (idxs.getD j 0) 0 < r_peak_lower_threshold := by
  intro idxs
  induction idxs with
  | nil =>
    intro d k hd hf
    simp [emitFlags] at hf
  | cons i is ih =>
    intro d k hd hf
    rw [emitFlags_cons] at hf
    cases k with
    | zero =>
      rw [List.getD_cons_zero] at hf
      simp [emits, hd] at hf
    | succ k =>
      rw [List.getD_cons_succ] at hf
      by_cases hlow : data.getD i 0 < r_peak_lower_threshold
      · exact ⟨0, Nat.succ_pos k, by simpa [List.getD_cons_zero] using hlow⟩
      · obtain ⟨j, hj, hval⟩ := ih (detect_step data d i) k
          (detect_step_not_rearmed data d i hd hlow) hf
        exact ⟨j + 1, Nat.succ_lt_succ hj, by simpa [List.getD_cons_succ] using hval⟩

/-- Claim C1: hysteresis debounce — along any scan trace of the R-peak
detector (over any index list, hence across any sequence of incremental
invocations), between any two positions where a `PeakEvent` is emitted there
is a scanned position whose sample is strictly below
`r_peak_lower_threshold` (2000); after an emission the detector is disarmed
until such a sample is scanned. -/
theorem r_peak_hysteresis (data : List ℤ) (d : DetectorState) (idxs : List ℕ)
    (k1 k2 : ℕ) (hlt : k1 < k2)
    (h1 : (emitFlags data d idxs).getD k1 false = true)
    (h2 : (emitFlags data d idxs).getD k2 false = true) :
    ∃ m, k1 < m ∧ m < k2 ∧ data.getD (idxs.getD m 0) 0 < r_peak_lower_threshold := by
  induction idxs generalizing d k1 k2 with
  | nil => simp [emitFlags] at h1
  | cons i is ih =>
    rw [emitFlags_cons] at h1 h2
    cases k1 with
    | zero =>
      rw [List.getD_cons_zero] at h1
      cases k2 with
      | zero => exact absurd hlt (lt_irrefl 0)
      | succ k2 =>
        rw [List.getD_cons_succ] at h2
        obtain ⟨j, hj, hval⟩ := emitFlags_disarmed data is (detect_step data d i) k2
          (detect_step_disarm data d i h1) h2
        exact ⟨j + 1, Nat.succ_pos j, Nat.succ_lt_succ hj,
          by simpa [List.getD_cons_succ] using hval⟩
    | succ k1 =>
      cases k2 with
      | zero => exact absurd hlt (by omega)
      | succ k2 =>
        rw [List.getD_cons_succ] at h1 h2
        obtain ⟨m, hm1, hm2, hval⟩ := ih (detect_step data d i) k1 k2 (by omega) h1 h2
        exact ⟨m + 1, by omega, by omega, by simpa [List.getD_cons_succ] using hval⟩

theorem r_peak_hysteresis_witness :
    (emitFlags [3000, 0, 3000, 0]
      { r_peak_detectable := true, r_peak_interval_counter := 0, r_peak_intervals := [] }
      [0, 1, 2]).getD 0 false = true ∧
    (emitFlags [3000, 0, 3000, 0]
      { r_peak_detectable := true, r_peak_interval_counter := 0, r_peak_intervals := [] }
      [0, 1, 2]).getD 2 false = true ∧
    ∃ m, 0 < m ∧ m < 2 ∧
      ([3000, 0, 3000, 0] : List ℤ).getD (([0, 1, 2] : List ℕ).getD m 0) 0
        < r_peak_lower_threshold :=
  ⟨by decide, by decide,
    r_peak_hysteresis [3000, 0, 3000, 0]
      { r_peak_detectable := true, r_peak_interval_counter := 0, r_peak_intervals := [] }
      [0, 1, 2] 0 2 (by decide) (by decide) (by decide)⟩

/-! Claim C2: the scan range and the advance of `last_processed_index`. -/

theorem detect_range_congr (data1 data2 : List ℤ) :
    ∀ (n lp : ℕ) (d : DetectorState),
      (∀ i, lp ≤ i → i < lp + n + 1 → data1.getD i 0 = data2.getD i 0) →
      detect_range data1 d (List.range' lp n) = detect_range data2 d (List.range' lp n) := by
  intro n
  induction n with
  | zero => intro lp d h; rfl
  | succ n ih =>
    intro lp d h
    have h0 : data1.getD lp 0 = data2.getD lp 0 := h lp le_rfl (by omega)
    have h1 : data1.getD (lp + 1) 0 = data2.getD (lp + 1) 0 := h (lp + 1) (by omega) (by omega)
    have hstep : detect_step data1 d lp = detect_step data2 d lp := by
      simp only [detect_step, h0, h1]
    rw [List.range'_succ]
    show detect_range data1 (detect_step data1 d lp) (List.range' (lp + 1) n)
      = detect_range data2 (detect_step data2 d lp) (List.range' (lp + 1) n)
    rw [hstep]
    exact ih (lp + 1) (detect_step data2 d lp) (fun i hi1 hi2 => h i (by omega) (by omega))

/-- Claim C2 counterexample: with a three-sample buffer fully unscanned, the
invocation leaves `last_processed_index = 3 = length`, not `length - 1 = 2`
as the claim states. -/
theorem last_processed_index_counterexample :
    cexC2.ecg_data.length = 3 ∧
    (process_fresh_data cexC2).last_processed_index = 3 ∧
    (process_fresh_data cexC2).last_processed_index ≠ cexC2.ecg_data.length - 1 := by
  refine ⟨rfl, rfl, by decide⟩

/-- Claim C2 (amended): each invocation scans exactly the indices in
`[last_processed_index, length - 1)` — the detector result reads no buffer
entry outside `[last_processed_index, length)` — and after the scan
`last_processed_index` equals `length` (not `length - 1`), so the
formerly-last sample is skipped, never processed by a later invocation. -/
theorem scan_range_advance (s : EcgState) (data2 : List ℤ)
    (hlen : data2.length = s.ecg_data.length)
    (hagree : ∀ i ∈ List.range' s.last_processed_index
        (s.ecg_data.length - s.last_processed_index),
      data2.getD i 0 = s.ecg_data.getD i 0) :
    (process_fresh_data s).last_processed_index = s.ecg_data.length ∧
    (detect_r_peaks { s with ecg_data := data2 }).r_peak_intervals
      = (detect_r_peaks s).r_peak_intervals ∧
    (detect_r_peaks { s with ecg_data := data2 }).r_peak_detectable
      = (detect_r_peaks s).r_peak_detectable ∧
    (detect_r_peaks { s with ecg_data := data2 }).r_peak_interval_counter
      = (detect_r_peaks s).r_peak_interval_counter := by
  have hdr : detect_range data2
      { r_peak_detectable := s.r_peak_detectable
        r_peak_interval_counter := s.r_peak_interval_counter
        r_peak_intervals := s.r_peak_intervals }
      (List.range' s.last_processed_index (data2.length - 1 - s.last_processed_index))
    = detect_range s.ecg_data
      { r_peak_detectable := s.r_peak_detectable
        r_peak_interval_counter := s.r_peak_interval_counter
        r_peak_intervals := s.r_peak_intervals }
      (List.range' s.last_processed_index (s.ecg_data.length - 1 - s.last_processed_index)) := by
    rw [hlen]
    by_cases hc : s.ecg_data.length - 1 - s.last_processed_index = 0
    · rw [hc]; rfl
    · apply detect_range_congr
      intro i hi1 hi2
      apply hagree
      rw [List.mem_range'_1]
      omega
  refine ⟨rfl, ?_, ?_, ?_⟩ <;>
  · simp only [detect_r_peaks]
    rw [hdr]

/-- A state mid-scan for the C2 witness: three samples, one already consumed,
compared against a buffer that differs only in the already-consumed prefix. -/
def witC2 : EcgState :=
  { initState with ecg_data := [0, 5, 0], last_processed_index := 1 }

theorem scan_range_advance_witness :
    (process_fresh_data witC2).last_processed_index = witC2.ecg_data.length ∧
    (detect_r_peaks { witC2 with ecg_data := [9, 5, 0] }).r_peak_intervals
      = (detect_r_peaks witC2).r_peak_intervals ∧
    (detect_r_peaks { witC2 with ecg_data := [9, 5, 0] }).r_peak_detectable
      = (detect_r_peaks witC2).r_peak_detectable ∧
    (detect_r_peaks { witC2 with ecg_data := [9, 5, 0] }).r_peak_interval_counter
      = (detect_r_peaks witC2).r_peak_interval_counter :=
  scan_range_advance witC2 [9, 5, 0] (by decide) (by decide)

/-! Claim C3: the mean RR interval. -/

theorem foldl_add_eq_sum (l : List ℕ) : ∀ a : ℕ, l.foldl (fun x y => x + y) a = a + l.sum := by
  induction l with
  | nil => intro a; simp
  | cons x xs ih => intro a; simp [ih]; omega

/-- Claim C3: `get_rr_interval` fails (models `statistics.fmean` raising on
an empty collection) iff the interval list is empty; on a non-empty list it
returns the arithmetic mean converted from milliseconds to seconds and
rounded to one decimal; the fixture `[800, 820, 810]` yields `0.8`. -/
theorem rr_interval_spec :
    (∀ l : List ℕ, get_rr_interval l = none ↔ l = []) ∧
    (∀ l : List ℕ, l ≠ [] →
      get_rr_interval l = some (pyRound1 ((l.sum : ℚ) / (l.length : ℚ) / 1000))) ∧
    get_rr_interval [800, 820, 810] = some (4 / 5) := by
  refine ⟨?_, ?_, ?_⟩
  · intro l; cases l <;> simp [get_rr_interval]
  · intro l hl
    unfold get_rr_interval
    rw [if_neg (by simpa [List.isEmpty_iff] using hl)]
    congr 2
    rw [foldl_add_eq_sum]
    push_cast
    ring
  · unfold get_rr_interval pyRound1 roundHalfEven
    norm_num [List.foldl]

theorem rr_interval_spec_witness :
    get_rr_interval [800, 820, 810]
      = some (pyRound1 ((([800, 820, 810] : List ℕ).sum : ℚ)
          / (([800, 820, 810] : List ℕ).length : ℚ) / 1000)) :=
  rr_interval_spec.2.1 [800, 820, 810] (by decide)

/-! Claim C4: the BPM computation. -/

theorem ratTrunc_eq_floor (q : ℚ) (h : 0 ≤ q) : ratTrunc q = ⌊q⌋ := by
  unfold ratTrunc
  rw [if_neg (not_lt.mpr h)]

/-- Claim C4: `get_bpm` fails iff the elapsed time is zero (the
`ZeroDivisionError`); otherwise it rounds
`(peakEventCount + 1) / elapsedSeconds * 60` down; 9 recorded intervals at
10 elapsed seconds give 60. -/
theorem bpm_spec :
    (∀ (l : List ℕ) (e : ℕ), get_bpm l e = none ↔ e = 0) ∧
    (∀ (l : List ℕ) (e : ℕ), e ≠ 0 →
      get_bpm l e = some ⌊((l.length : ℚ) + 1) / (e : ℚ) * 60⌋) ∧
    (∀ l : List ℕ, l.length = 9 → get_bpm l 10 = some 60) := by
  have key : ∀ (l : List ℕ) (e : ℕ), e ≠ 0 →
      get_bpm l e = some ⌊((l.length : ℚ) + 1) / (e : ℚ) * 60⌋ := by
    intro l e he
    unfold get_bpm
    rw [if_neg he]
    congr 1
    rw [ratTrunc_eq_floor _ (by positivity)]
    congr 1
    push_cast
    ring
  refine ⟨?_, key, ?_⟩
  · intro l e
    unfold get_bpm
    split <;> simp_all
  · intro l hl
    rw [key l 10 (by norm_num), hl]
    norm_num

theorem bpm_spec_witness :
    get_bpm (List.replicate 9 0) 10 = some 60 :=
  bpm_spec.2.2 (List.replicate 9 0) (by decide)

/-! Claim C5: the live-window length invariant. -/

theorem process_fresh_data_lp (s : EcgState) :
    (process_fresh_data s).last_processed_index = s.ecg_data.length := rfl

theorem process_fresh_data_ydata (s : EcgState) :
    (process_fresh_data s).ydata
      = s.ydata.drop (s.ecg_data.drop s.last_processed_index).length
          ++ s.ecg_data.drop s.last_processed_index := rfl

/-- Claim C5 counterexample: a freshly reset window (length 2000) that
receives 2001 samples in a single tick ends up with 2001 values, not
`display_count`. -/
theorem live_window_overflow_counterexample :
    cexC5.ydata.length = display_count ∧
    (process_fresh_data cexC5).ydata.length ≠ display_count := by
  have h1 : cexC5.ydata.length = display_count := by
    simp only [cexC5, initState, List.length_cons, List.length_replicate]
    norm_num [display_count]
  have h2 : cexC5.ecg_data.length = display_count + 1 := by
    simp only [cexC5, List.length_replicate]
  have h3 : cexC5.last_processed_index = 0 := rfl
  refine ⟨h1, ?_⟩
  rw [process_fresh_data_ydata]
  simp only [List.length_append, List.length_drop, h1, h2, h3]
  norm_num [display_count]

/-- Claim C5 (amended): before any sample arrives the window is the synthetic
padding `[min_ydata_value] ++ (display_count − 1) × max_ydata_value` of
length `display_count`, and a tick's shift-and-append update preserves the
window length whenever the fresh batch is no longer than the current window
(in particular, at most `display_count` new samples per tick keep the window
at exactly `display_count` values); a single batch larger than the window
grows it instead. -/
theorem live_window_length_spec :
    (∀ s : EcgState, (reset_ydata s).ydata
        = min_ydata_value :: List.replicate (display_count - 1) max_ydata_value
      ∧ (reset_ydata s).ydata.length = display_count) ∧
    (∀ s : EcgState,
      s.ecg_data.length - s.last_processed_index ≤ s.ydata.length →
      (process_fresh_data s).ydata.length = s.ydata.length) := by
  constructor
  · intro s
    refine ⟨rfl, ?_⟩
    simp only [reset_ydata, List.length_cons, List.length_replicate]
    norm_num [display_count]
  · intro s h
    rw [process_fresh_data_ydata]
    simp only [List.length_append, List.length_drop]
    omega

/-- A small state for the C5 witness: two fresh samples against a
three-value window. -/
def witC5 : EcgState :=
  { initState with ecg_data := [7, 8], ydata := [1, 2, 3] }

theorem live_window_length_spec_witness :
    ((reset_ydata witC5).ydata
        = min_ydata_value :: List.replicate (display_count - 1) max_ydata_value
      ∧ (reset_ydata witC5).ydata.length = display_count) ∧
    (witC5.ecg_data.length - witC5.last_processed_index ≤ witC5.ydata.length ∧
      (process_fresh_data witC5).ydata.length = witC5.ydata.length) :=
  ⟨live_window_length_spec.1 witC5,
    ⟨by decide, live_window_length_spec.2 witC5 (by decide)⟩⟩

/-! Claim C6: the scrub mapping. -/

theorem ratTrunc_nonneg_le (q : ℚ) (z : ℤ) (h0 : 0 ≤ q) (h : q ≤ (z : ℚ)) :
    ratTrunc q ≤ z := by
  rw [ratTrunc_eq_floor q h0]
  calc ⌊q⌋ ≤ ⌊(z : ℚ)⌋ := Int.floor_le_floor h
    _ = z := Int.floor_intCast z

/-- Claim C6 counterexample: with 2150 samples and control value 1 the code
computes the start index `int(1 * 1.5) = 1`, while the claimed
`round(1 * (2150 - 2000) / 100) = round(1.5) = 2` (banker's rounding): the
round-based mapping disagrees with the code's truncation. -/
theorem slider_round_counterexample :
    slider_indices 2150 (calculate_slider_jump_value 2150) 1 = (1, 2001) ∧
    roundHalfEven ((1 : ℚ) * calculate_slider_jump_value 2150) = 2 := by
  constructor
  · unfold slider_indices calculate_slider_jump_value ratTrunc
    norm_num [display_count, slider_max_value]
  · unfold roundHalfEven calculate_slider_jump_value
    norm_num [display_count, slider_max_value]

/-- Claim C6 (amended): for a buffer of at least `display_count` samples and
a control value in `[0, 100]`, the scrub start index is the truncation
(floor, not round) of `value × (total − display_count) / 100`; the window
always spans exactly `display_count` samples, its end never exceeds the
buffer length (the clamp branch cannot trigger for in-range control values),
and the fixture `total = 5000`, `value = 100` gives `(3000, 5000)`. -/
theorem slider_mapping_spec (n v : ℕ) (hn : display_count ≤ n) (hv : v ≤ slider_max_value) :
    (slider_indices n (calculate_slider_jump_value n) v).1
      = ratTrunc ((v : ℚ) * calculate_slider_jump_value n) ∧
    (slider_indices n (calculate_slider_jump_value n) v).2
      = (slider_indices n (calculate_slider_jump_value n) v).1 + (display_count : ℤ) ∧
    (slider_indices n (calculate_slider_jump_value n) v).2 ≤ (n : ℤ) ∧
    slider_indices 5000 (calculate_slider_jump_value 5000) 100 = (3000, 5000) := by
  have hcast : (display_count : ℚ) ≤ (n : ℚ) := by exact_mod_cast hn
  have hjump0 : (0 : ℚ) ≤ calculate_slider_jump_value n := by
    unfold calculate_slider_jump_value
    apply div_nonneg
    · linarith
    · norm_num [slider_max_value]
  have hq0 : (0 : ℚ) ≤ (v : ℚ) * calculate_slider_jump_value n :=
    mul_nonneg (by positivity) hjump0
  have hle : (v : ℚ) * calculate_slider_jump_value n
      ≤ ((((n : ℤ) - (display_count : ℤ) : ℤ)) : ℚ) := by
    have hv100 : (v : ℚ) ≤ (slider_max_value : ℚ) := by exact_mod_cast hv
    have h100 : ((slider_max_value : ℕ) : ℚ) = 100 := by norm_num [slider_max_value]
    calc (v : ℚ) * calculate_slider_jump_value n
        ≤ (slider_max_value : ℚ) * calculate_slider_jump_value n :=
          mul_le_mul_of_nonneg_right hv100 hjump0
      _ = (n : ℚ) - (display_count : ℚ) := by
          unfold calculate_slider_jump_value
          rw [h100]
          ring
      _ = ((((n : ℤ) - (display_count : ℤ) : ℤ)) : ℚ) := by push_cast; ring
  have htr : ratTrunc ((v : ℚ) * calculate_slider_jump_value n)
      ≤ (n : ℤ) - (display_count : ℤ) := ratTrunc_nonneg_le _ _ hq0 hle
  have hcond : ¬ (ratTrunc ((v : ℚ) * calculate_slider_jump_value n)
      + (display_count : ℤ) > (n : ℤ)) := by omega
  refine ⟨?_, ?_, ?_, ?_⟩
  · simp only [slider_indices]
    rw [if_neg hcond]
  · simp only [slider_indices]
    rw [if_neg hcond]
  · simp only [slider_indices]
    rw [if_neg hcond]
    omega
  · unfold slider_indices calculate_slider_jump_value ratTrunc
    norm_num [display_count, slider_max_value]

theorem slider_mapping_spec_witness :
    (slider_indices 5000 (calculate_slider_jump_value 5000) 100).1
      = ratTrunc ((100 : ℚ) * calculate_slider_jump_value 5000) ∧
    (slider_indices 5000 (calculate_slider_jump_value 5000) 100).2
      = (slider_indices 5000 (calculate_slider_jump_value 5000) 100).1 + (display_count : ℤ) ∧
    (slider_indices 5000 (calculate_slider_jump_value 5000) 100).2 ≤ ((5000 : ℕ) : ℤ) ∧
    slider_indices 5000 (calculate_slider_jump_value 5000) 100 = (3000, 5000) :=
  slider_mapping_spec 5000 100 (by decide) (by decide)

/-! Preservation lemmas for `calculate_and_update_label_values` and the
lifecycle helpers, shared by the remaining claims. -/

theorem calculate_preserves (s : EcgState) :
    (calculate_and_update_label_values s).ecg_data = s.ecg_data ∧
    (calculate_and_update_label_values s).ydata = s.ydata ∧
    (calculate_and_update_label_values s).last_processed_index = s.last_processed_index ∧
    (calculate_and_update_label_values s).r_peak_intervals = s.r_peak_intervals ∧
    (calculate_and_update_label_values s).r_peak_detectable = s.r_peak_detectable ∧
    (calculate_and_update_label_values s).r_peak_interval_counter
      = s.r_peak_interval_counter ∧
    (calculate_and_update_label_values s).slider_visible = s.slider_visible := by
  unfold calculate_and_update_label_values stop_measurement write_serial
  dsimp only
  repeat' split
  all_goals simp

theorem calculate_of_idle (s : EcgState) (h : s.is_measurement_in_progress = false) :
    (calculate_and_update_label_values s).is_measurement_in_progress = false ∧
    (calculate_and_update_label_values s).last_time_health_data_calculated
      = get_elapsed_time s.ecg_data.length := by
  unfold calculate_and_update_label_values stop_measurement write_serial
  dsimp only
  rw [if_pos (Or.inl (by simp [h]))]
  repeat' split
  all_goals simp [h]

/-! Claim C7: tick termination. -/

set_option maxRecDepth 40000 in
/-- Claim C7 counterexample: a recording state at elapsed time 3 s (not 30)
whose tick nevertheless stops the measurement — the periodic metrics
recomputation is due, the interval collection is empty, so the
signal-processing error path force-stops the session. -/
theorem tick_error_stop_counterexample :
    cexC7.is_measurement_in_progress = true ∧
    is_measurement_finished cexC7 = false ∧
    (tick_method cexC7).is_measurement_in_progress = false ∧
    (tick_method cexC7).signal_error_reported = true := by
  refine ⟨rfl, by decide, by decide, by decide⟩

/-- Claim C7 (amended): on a tick during recording the finished check
succeeds iff `floor(len(buffer)/sampling_rate)` equals
`measurement_duration` exactly (a skipped or exceeded value never matches);
when it fails the tick advances the detector over the fresh samples and
refreshes the live window (then recomputes labels, which can itself
force-stop the session through the signal-processing error path, as the
counterexample shows); when it succeeds the tick stops the measurement and
initializes the scrub slider. -/
theorem tick_termination_spec (s : EcgState)
    (h : s.is_measurement_in_progress = true) :
    (is_measurement_finished s = true
      ↔ get_elapsed_time s.ecg_data.length = measurement_duration) ∧
    (is_measurement_finished s = false →
      tick_method s = calculate_and_update_label_values (process_fresh_data s) ∧
      (tick_method s).last_processed_index = s.ecg_data.length ∧
      (tick_method s).r_peak_intervals = (process_fresh_data s).r_peak_intervals ∧
      (tick_method s).ydata = (process_fresh_data s).ydata) ∧
    (is_measurement_finished s = true →
      tick_method s
        = calculate_and_update_label_values (initialize_slider (stop_measurement s))) := by
  refine ⟨?_, ?_, ?_⟩
  · simp [is_measurement_finished, eq_comm]
  · intro hf
    have ht : tick_method s = calculate_and_update_label_values (process_fresh_data s) := by
      unfold tick_method
      rw [hf]
      simp
    refine ⟨ht, ?_, ?_, ?_⟩
    · rw [ht, (calculate_preserves _).2.2.1]
      exact process_fresh_data_lp s
    · rw [ht, (calculate_preserves _).2.2.2.1]
    · rw [ht, (calculate_preserves _).2.1]
  · intro hf
    unfold tick_method
    rw [hf]
    simp

theorem tick_termination_spec_witness :
    (is_measurement_finished recordingState = true
      ↔ get_elapsed_time recordingState.ecg_data.length = measurement_duration) ∧
    (is_measurement_finished recordingState = false →
      tick_method recordingState
        = calculate_and_update_label_values (process_fresh_data recordingState) ∧
      (tick_method recordingState).last_processed_index
        = recordingState.ecg_data.length ∧
      (tick_method recordingState).r_peak_intervals
        = (process_fresh_data recordingState).r_peak_intervals ∧
      (tick_method recordingState).ydata
        = (process_fresh_data recordingState).ydata) ∧
    (is_measurement_finished recordingState = true →
      tick_method recordingState
        = calculate_and_update_label_values
            (initialize_slider (stop_measurement recordingState))) :=
  tick_termination_spec recordingState rfl

/-! Claim C8: `start` from the recording state. -/

/-- Claim C8 counterexample: invoking the start action while a measurement is
in progress does not fail with any error — there is no state guard; it simply
restarts: the buffer is cleared, START is written to the transport again, and
the state is recording afresh. -/
theorem start_from_recording_counterexample :
    recordingState.is_measurement_in_progress = true ∧
    recordingState.ecg_data ≠ [] ∧
    (start_button_action recordingState true).is_measurement_in_progress = true ∧
    (start_button_action recordingState true).timer_running = true ∧
    (start_button_action recordingState true).ecg_data = [] ∧
    (start_button_action recordingState true).serial_writes
      = recordingState.serial_writes ++ [SerialCode.START_MEASUREMENT] := by
  exact ⟨rfl, by decide, rfl, rfl, rfl, rfl⟩

/-- Claim C8 (amended): `start_button_action` performs no state check at all:
from any state (including mid-recording), once the transport connects it
resets all measurement data and starts (or restarts) a measurement; the
`Idle`-only restriction exists only in the GUI layout, outside the core. -/
theorem start_restart_spec (s : EcgState) :
    start_button_action s true = start_measurement { s with ser_connected := true } ∧
    (start_button_action s true).is_measurement_in_progress = true ∧
    (start_button_action s true).timer_running = true ∧
    (start_button_action s true).ecg_data = [] ∧
    (start_button_action s true).r_peak_intervals = [] ∧
    (start_button_action s true).last_processed_index = 0 :=
  ⟨rfl, rfl, rfl, rfl, rfl, rfl⟩

/-! Claim C10: the unhandled crash in `load_file`. -/

/-- Claim C10 (code bug): a file path whose `open` (or `readlines`) raises is
not absorbed or reported — `error_code` is set, but the subsequent
`len(file_content)` references a never-assigned local and raises `NameError`,
which escapes `load_file` and `load_button_action` unhandled. -/
theorem load_file_openfail_crash :
    load_file true FileInput.openFail = LoadFileResult.crash ∧
    load_button_action initState true FileInput.openFail = none :=
  ⟨rfl, rfl⟩

/-! Claim C9: loading a recorded file for review. -/

theorem parse_lines_map_some (l : List ℤ) : parse_lines (l.map some) = some l := by
  induction l with
  | nil => rfl
  | cons x xs ih => simp [parse_lines, ih]

theorem load_measurement_eq (s : EcgState) (content : List ℤ) :
    load_measurement s content
      = calculate_and_update_label_values (detect_r_peaks (initialize_slider
          { reset_measurement_data_and_graph_ui s with
              ecg_data := (reset_measurement_data_and_graph_ui s).ecg_data ++ content })) :=
  rfl

/-- Claim C9: from an idle state, loading a parsed dataset shorter than
`display_count` only reports `NOT_ENOUGH_DATA` — the buffer is untouched and
the state otherwise unchanged (still idle) — while a dataset of at least
`display_count` samples populates the buffer, runs the detector once over the
whole set (indices `[0, length - 1)`), recomputes the metrics once, and ends
in review mode (not recording, scrub slider visible). -/
theorem load_review_spec (s : EcgState) (ls : List (Option ℤ)) (content : List ℤ)
    (hidle : s.is_measurement_in_progress = false)
    (hparse : parse_lines ls = some content) :
    (content.length < display_count →
      load_button_action s true (FileInput.lines ls)
        = some { s with reported_errors
            := s.reported_errors ++ [ErrorCode.NOT_ENOUGH_DATA] }) ∧
    (display_count ≤ content.length →
      load_button_action s true (FileInput.lines ls)
        = some (load_measurement s content) ∧
      (load_measurement s content).ecg_data = content ∧
      (load_measurement s content).is_measurement_in_progress = false ∧
      (load_measurement s content).slider_visible = true ∧
      (load_measurement s content).r_peak_intervals
        = (detect_range content
            { r_peak_detectable := true, r_peak_interval_counter := 0,
              r_peak_intervals := [] }
            (List.range' 0 (content.length - 1))).r_peak_intervals ∧
      (load_measurement s content).last_time_health_data_calculated
        = get_elapsed_time content.length) := by
  constructor
  · intro hlt
    have hlf : load_file true (FileInput.lines ls)
        = LoadFileResult.errorReported ErrorCode.NOT_ENOUGH_DATA := by
      simp only [load_file, hparse]
      simp [hlt]
    simp [load_button_action, hlf]
  · intro hge
    have hlf : load_file true (FileInput.lines ls) = LoadFileResult.content content := by
      simp only [load_file, hparse]
      simp [Nat.not_lt.mpr hge]
    refine ⟨by simp [load_button_action, hlf], ?_, ?_, ?_, ?_, ?_⟩
    · rw [load_measurement_eq, (calculate_preserves _).1]
      rfl
    · rw [load_measurement_eq]
      refine (calculate_of_idle _ ?_).1
      exact hidle
    · rw [load_measurement_eq, (calculate_preserves _).2.2.2.2.2.2]
      rfl
    · rw [load_measurement_eq, (calculate_preserves _).2.2.2.1]
      rfl
    · rw [load_measurement_eq]
      refine (calculate_of_idle _ ?_).2
      exact hidle

/-- A loaded dataset of exactly `display_count` samples for the C9 witness. -/
def witC9content : List ℤ := List.replicate display_count 0

theorem load_review_spec_witness :
    load_button_action initState true (FileInput.lines (witC9content.map some))
      = some (load_measurement initState witC9content) ∧
    (load_measurement initState witC9content).ecg_data = witC9content ∧
    (load_measurement initState witC9content).is_measurement_in_progress = false ∧
    (load_measurement initState witC9content).slider_visible = true ∧
    (load_measurement initState witC9content).r_peak_intervals
      = (detect_range witC9content
          { r_peak_detectable := true, r_peak_interval_counter := 0,
            r_peak_intervals := [] }
          (List.range' 0 (witC9content.length - 1))).r_peak_intervals ∧
    (load_measurement initState witC9content).last_time_health_data_calculated
      = get_elapsed_time witC9content.length :=
  (load_review_spec initState (witC9content.map some) witC9content rfl
    (parse_lines_map_some witC9content)).2 (by simp [witC9content])
